import Mathlib

/-!
Shallow embedding of the core comparison engine of `csv_check_pro`
(`src/csv_checker.py`): key-column resolution, duplicate detection,
row alignment and field-by-field diffing, aggregation and report
generation.  File reading itself (path existence, CSV parsing, the
UTF-8 BOM) is I/O and is represented by a `CsvFile` value holding the
header and the already-parsed records; everything from header
resolution onwards is translated from the source.
-/

namespace CsvChecker

/-- A parsed CSV record: a finite mapping from column name to textual
value, as produced by the reader (the Python code uses a `dict`).
Keys are unique in every record the reader produces. -/
abbrev Row := List (String × String)

/-- `row.get(column)` — the value bound to `column`, if any. -/
def rowGet (row : Row) (column : String) : Option String :=
  (row.find? (fun entry => entry.1 == column)).map (fun entry => entry.2)

/-- `row.get(column, dflt)`. -/
def rowGetD (row : Row) (column : String) (dflt : String) : String :=
  (rowGet row column).getD dflt

/-- `row.pop(column, ...)`'s effect on the mapping: remove the binding. -/
def rowPop (row : Row) (column : String) : Row :=
  row.filter (fun entry => entry.1 != column)

/-- `row[column] = value`: bind `column` to `value` (replacing any
previous binding). -/
def rowSet (row : Row) (column : String) (value : String) : Row :=
  rowPop row column ++ [(column, value)]

/-- The names of the columns a record binds (`row.keys()`). -/
def rowKeys (row : Row) : List String :=
  row.map Prod.fst

/-- `class CsvComparisonError(Exception)` — the single exception class of
the module; it carries nothing but the message string passed to `raise`. -/
structure CsvComparisonError where
  message : String
deriving DecidableEq, Repr

/-- The exception class ("kind") of an error raised by the core.  The
module defines exactly one exception class, so every error has this
same class. -/
def errorClass (_ : CsvComparisonError) : String :=
  "CsvComparisonError"

/-- Code-point lexicographic "strictly less" on character sequences:
the order Python uses to compare strings. -/
def charListLt : List Char → List Char → Bool
  | _, [] => false
  | [], _ :: _ => true
  | a :: as, b :: bs =>
    if a < b then true
    else if b < a then false
    else charListLt as bs

/-- Python's `a < b` on strings: code-point lexicographic comparison. -/
def strLt (a b : String) : Bool :=
  charListLt a.data b.data

/-- Python's `a <= b` on strings. -/
def strLe (a b : String) : Bool :=
  !(strLt b a)

/-- The sorting relation on strings (`a <= b`), as a proposition. -/
def strLeRel (a b : String) : Prop :=
  strLe a b = true

instance : DecidableRel strLeRel :=
  fun a b => inferInstanceAs (Decidable (strLe a b = true))

/-- `sorted(set(l))`: the distinct elements of `l` in ascending
code-point order. -/
def sortedDedup (l : List String) : List String :=
  List.insertionSort strLeRel l.dedup

/-- Models Python's `str.casefold` (simple case folding), applied
character by character. -/
def casefold (s : String) : String :=
  ⟨s.data.map Char.toLower⟩

/-- A CSV source file as the reader presents it to the core: its base
name (used in messages), its header row and its records.  Each record
binds exactly the header's columns (missing trailing fields read as
empty text). -/
structure CsvFile where
  name : String
  header : List String
  records : List Row

/-- `_resolve_key_field`: return the actual column name that matches the
provided key — first pass exact, second pass case-folded; raise
`CsvComparisonError` when neither matches. -/
def resolve_key_field (fieldnames : List String) (key_field : String)
    (file_name : String) : Except CsvComparisonError String :=
  match fieldnames.find? (fun field => field == key_field) with
  | some field => .ok field
  | none =>
    match fieldnames.find? (fun field => casefold field == casefold key_field) with
    | some field => .ok field
    | none =>
      .error ⟨"В файле " ++ file_name ++ " отсутствует ключевой столбец '"
        ++ key_field ++ "'."⟩

/-- The per-record renaming done by `read_csv_sorted` when the resolved
column differs from the requested key:
`value = row.pop(actual_key_field, ""); row[key_field] = value`. -/
def renameKey (actual_key_field key_field : String) (row : Row) : Row :=
  if actual_key_field != key_field then
    rowSet (rowPop row actual_key_field) key_field (rowGetD row actual_key_field "")
  else
    row

/-- The sorting relation of `rows.sort(key=lambda row: row.get(key_field, ""))`:
compare two records by their key value. -/
def rowKeyLe (key_field : String) (r₁ r₂ : Row) : Prop :=
  strLeRel (rowGetD r₁ key_field "") (rowGetD r₂ key_field "")

instance (key_field : String) : DecidableRel (rowKeyLe key_field) :=
  fun r₁ r₂ =>
    inferInstanceAs (Decidable (strLeRel (rowGetD r₁ key_field "") (rowGetD r₂ key_field "")))

/-- `read_csv_sorted`: resolve the key column, rename it to the canonical
key name in every record, and return the records sorted ascending by
key value (`rows.sort(key=lambda row: row.get(key_field, ""))`).  The
path-existence and header-presence checks are I/O-level guards that
precede this logic in the source. -/
def read_csv_sorted (file : CsvFile) (key_field : String) :
    Except CsvComparisonError (List Row) :=
  match resolve_key_field file.header key_field file.name with
  | .error e => .error e
  | .ok actual_key_field =>
    .ok (List.insertionSort (rowKeyLe key_field)
      (file.records.map (renameKey actual_key_field key_field)))

/-- The loop body of `detect_duplicate_keys`: `occurrences` is the
`defaultdict(int)` counter; a key value is appended to the output the
moment its count reaches exactly 2. -/
def detectAux (occurrences : String → Nat) : List String → List String
  | [] => []
  | key_value :: rest =>
    let occ' : String → Nat :=
      fun s => if s = key_value then occurrences key_value + 1 else occurrences s
    if occ' key_value = 2 then
      key_value :: detectAux occ' rest
    else
      detectAux occ' rest

/-- `detect_duplicate_keys`: scan the rows' key values and collect each
value the first time it is seen for the second time. -/
def detect_duplicate_keys (rows : List Row) (key_field : String) : List String :=
  detectAux (fun _ => 0) (rows.map (fun row => rowGetD row key_field ""))

/-- Position-level view of duplicate detection, stated independently of
the scanning counter: keep the key value of exactly those positions `i`
whose prefix `keys[0..i]` contains that value exactly twice, in
position order. -/
def secondOccurrenceKeys (keys : List String) : List String :=
  (List.range keys.length).filterMap (fun i =>
    if (keys.take (i + 1)).count (keys.getD i "") = 2 then some (keys.getD i "") else none)

/-- `@dataclass(frozen=True) class Difference`. -/
structure Difference where
  POLICY_NO : String
  column : String
  value_a : String
  value_b : String
  difference_type : String
deriving DecidableEq, Repr

/-- `VALUE_MISMATCH = "value_mismatch"`. -/
def VALUE_MISMATCH : String := "value_mismatch"

/-- `MISSING_IN_A = "missing_in_a"`. -/
def MISSING_IN_A : String := "missing_in_a"

/-- `MISSING_IN_B = "missing_in_b"`. -/
def MISSING_IN_B : String := "missing_in_b"

/-- `collect_columns` (local to `compare_csv_files`): the set of column
names appearing in any of the rows. -/
def collect_columns (rows : List Row) : List String :=
  (rows.flatMap rowKeys).dedup

/-- `all_columns = list(sorted(columns_a | columns_b))`. -/
def allColumns (rows_a rows_b : List Row) : List String :=
  sortedDedup (collect_columns rows_a ++ collect_columns rows_b)

/-- `all_keys = sorted(set(lookup_a) | set(lookup_b))`: the distinct key
values of both sides, ascending. -/
def allKeys (rows_a rows_b : List Row) (key_field : String) : List String :=
  sortedDedup ((rows_a ++ rows_b).map (fun row => rowGetD row key_field ""))

/-- `lookup_a = {row[key_field]: row for row in rows_a}` viewed as a
lookup function: the last row carrying the given key value, if any. -/
def keyLookup (rows : List Row) (key_field : String) (key : String) : Option Row :=
  rows.reverse.find? (fun row => rowGetD row key_field "" == key)

/-- `row_preview` (local to `compare_csv_files`): the non-key
`column=value` pairs of the row, in `all_columns` order, comma-joined;
a fixed "no data" message when every such value is empty. -/
def row_preview (all_columns : List String) (key_field : String) (row : Row) : String :=
  let parts := all_columns.filterMap (fun column =>
    if column == key_field then none
    else
      let value := rowGetD row column ""
      if value != "" then some (column ++ "=" ++ value) else none)
  if parts.isEmpty then "данные отсутствуют" else String.intercalate ", " parts

/-- The body of the per-column loop run for a key present in both
sides: skip the key column, compare the two values (missing read as
empty text, `row.get(column, "") or ""`), and emit a `VALUE_MISMATCH`
difference exactly when they differ. -/
def mismatchFor (row_a row_b : Row) (key_field k : String) (column : String) :
    Option Difference :=
  if column == key_field then none
  else
    let value_a := rowGetD row_a column ""
    let value_b := rowGetD row_b column ""
    if value_a != value_b then
      some { POLICY_NO := k
             column := column
             value_a := value_a
             value_b := value_b
             difference_type := VALUE_MISMATCH }
    else none

/-- The body of `compare_csv_files`' main loop for one key of the key
universe: classify the key as missing-in-A / missing-in-B / matched and
emit the corresponding `Difference` records. -/
def keyDifferences (rows_a rows_b : List Row) (key_field : String)
    (name_a name_b : String) (key : String) : List Difference :=
  let all_columns := allColumns rows_a rows_b
  match keyLookup rows_a key_field key with
  | none =>
    [{ POLICY_NO := key
       column := "__missing__"
       value_a := "Нет записи в " ++ name_a
       value_b :=
         match keyLookup rows_b key_field key with
         | some row_b =>
           if row_b.isEmpty then "—"
           else "Данные файла 2: " ++ row_preview all_columns key_field row_b
         | none => "—"
       difference_type := MISSING_IN_A }]
  | some row_a =>
    match keyLookup rows_b key_field key with
    | none =>
      [{ POLICY_NO := key
         column := "__missing__"
         value_a := "Данные файла 1: " ++ row_preview all_columns key_field row_a
         value_b := "Нет записи в " ++ name_b
         difference_type := MISSING_IN_B }]
    | some row_b =>
      all_columns.filterMap (mismatchFor row_a row_b key_field key)

/-- The difference sequence `compare_csv_files` builds once both loads
and the duplicate check have succeeded: iterate the sorted key universe
and concatenate each key's differences. -/
def computeDifferences (rows_a rows_b : List Row) (key_field : String)
    (name_a name_b : String) : List Difference :=
  (allKeys rows_a rows_b key_field).flatMap
    (keyDifferences rows_a rows_b key_field name_a name_b)

/-- The message of the `CsvComparisonError` raised on duplicate keys:
the per-file reports (present only for the sides that actually have
duplicates), newline-joined. -/
def duplicateErrorMessage (name_a name_b : String)
    (duplicates_a duplicates_b : List String) : String :=
  String.intercalate "\n"
    ((if duplicates_a.isEmpty then [] else
        ["Файл " ++ name_a ++ " содержит дубликаты ключей: "
          ++ String.intercalate ", " duplicates_a]) ++
     (if duplicates_b.isEmpty then [] else
        ["Файл " ++ name_b ++ " содержит дубликаты ключей: "
          ++ String.intercalate ", " duplicates_b]))

/-- `compare_csv_files`: load both files, abort with the duplicate-key
error if either side repeats a key value, and otherwise return the
ordered difference sequence. -/
def compare_csv_files (file_a file_b : CsvFile) (key_field : String) :
    Except CsvComparisonError (List Difference) :=
  match read_csv_sorted file_a key_field with
  | .error e => .error e
  | .ok rows_a =>
    match read_csv_sorted file_b key_field with
    | .error e => .error e
    | .ok rows_b =>
      let duplicates_a := detect_duplicate_keys rows_a key_field
      let duplicates_b := detect_duplicate_keys rows_b key_field
      if duplicates_a.isEmpty ∧ duplicates_b.isEmpty then
        .ok (computeDifferences rows_a rows_b key_field file_a.name file_b.name)
      else
        .error ⟨duplicateErrorMessage file_a.name file_b.name duplicates_a duplicates_b⟩

/-- `FIELD_REPORT_HEADERS`. -/
def FIELD_REPORT_HEADERS : List String :=
  ["Поле", "Всего расхождений", "Несовпадений значений",
   "Отсутствует в файле 1", "Отсутствует в файле 2"]

/-- The display field name a difference is grouped under:
`diff.column if diff.column != "__missing__" else "Строка отсутствует"`. -/
def displayField (diff : Difference) : String :=
  if diff.column != "__missing__" then diff.column else "Строка отсутствует"

/-- One row of the aggregated report: the display field name and the
per-kind counters (the code renders the counters with `str` when it
builds the report dictionary). -/
structure SummaryRow where
  field_name : String
  total : Nat
  value_mismatches : Nat
  missing_in_a : Nat
  missing_in_b : Nat
deriving DecidableEq, Repr

/-- `summarize_differences_by_field`: group the differences by display
field name and return, in ascending field-name order, the per-field
counters. -/
def summarize_differences_by_field (differences : List Difference) :
    List SummaryRow :=
  let field_names := sortedDedup (differences.map displayField)
  field_names.map (fun field_name =>
    let group := differences.filter (fun diff => displayField diff == field_name)
    { field_name := field_name
      total := group.length
      value_mismatches :=
        (group.filter (fun diff => diff.difference_type == VALUE_MISMATCH)).length
      missing_in_a :=
        (group.filter (fun diff => diff.difference_type == MISSING_IN_A)).length
      missing_in_b :=
        (group.filter (fun diff => diff.difference_type == MISSING_IN_B)).length })

/-- The CSV line written for one summary row (dictionary values are
rendered with `str` in the source). -/
def renderSummaryRow (row : SummaryRow) : List String :=
  [row.field_name, toString row.total, toString row.value_mismatches,
   toString row.missing_in_a, toString row.missing_in_b]

/-- `write_field_report`: refuse an unset destination, refuse an empty
report, and otherwise produce the full content written to the
destination (header line followed by one line per summary row).
Returning `.error` models raising before the file is opened: nothing is
written. -/
def write_field_report (differences : List Difference) (output_path : String) :
    Except CsvComparisonError (List (List String)) :=
  if output_path = "" then
    .error ⟨"Не указан путь для сохранения отчёта."⟩
  else
    let report_rows := summarize_differences_by_field differences
    if report_rows.isEmpty then
      .error ⟨"Отчёт нельзя сохранить: различия отсутствуют."⟩
    else
      .ok (FIELD_REPORT_HEADERS :: report_rows.map renderSummaryRow)

/-! ### Concrete sample inputs used to exercise the theorems -/

/-- Sample source A: one record with key "001". -/
def sampleA : CsvFile :=
  ⟨"a.csv", ["K", "Amount"], [[("K", "001"), ("Amount", "100")]]⟩

/-- Sample source B: header only, no records. -/
def sampleB : CsvFile :=
  ⟨"b.csv", ["K", "Amount"], []⟩

/-- Sample source B with records for keys "001" and "002". -/
def sampleB2 : CsvFile :=
  ⟨"b.csv", ["K", "Amount"], [[("K", "001"), ("Amount", "150")], [("K", "002"), ("Amount", "200")]]⟩

/-- Sample source A with a duplicated key "001". -/
def sampleDupA : CsvFile :=
  ⟨"a.csv", ["K", "Amount"], [[("K", "001"), ("Amount", "100")], [("K", "001"), ("Amount", "150")]]⟩

/-- A source whose header contains a column literally named
`"__missing__"` besides the key. -/
def sampleSentinelA : CsvFile :=
  ⟨"a.csv", ["K", "__missing__"], [[("K", "1"), ("__missing__", "x")]]⟩

/-- Like `sampleSentinelA` but with a different value in the
`"__missing__"` column. -/
def sampleSentinelB : CsvFile :=
  ⟨"b.csv", ["K", "__missing__"], [[("K", "1"), ("__missing__", "y")]]⟩

/-- A source whose key column differs from the canonical name only by
case. -/
def sampleLower : CsvFile :=
  ⟨"c.csv", ["Policy_no", "Amount"], [[("Policy_no", "001"), ("Amount", "100")]]⟩

/-- Sample source B with a duplicated key "002". -/
def sampleDupB : CsvFile :=
  ⟨"b.csv", ["K", "Amount"], [[("K", "002"), ("Amount", "10")], [("K", "002"), ("Amount", "20")]]⟩

/-! ### Order facts about the embedded string comparison -/

theorem charListLt_irrefl (l : List Char) : charListLt l l = false := by
  induction l with
  | nil => rfl
  | cons a as ih => simp [charListLt, ih]

theorem charListLt_trans {l₁ l₂ l₃ : List Char} (h₁ : charListLt l₁ l₂ = true)
    (h₂ : charListLt l₂ l₃ = true) : charListLt l₁ l₃ = true := by
  induction l₁ generalizing l₂ l₃ with
  | nil =>
    cases l₃ with
    | nil => cases l₂ <;> simp [charListLt] at h₁ h₂
    | cons c cs => rfl
  | cons a as ih =>
    cases l₂ with
    | nil => simp [charListLt] at h₁
    | cons b bs =>
      cases l₃ with
      | nil => simp [charListLt] at h₂
      | cons c cs =>
        simp only [charListLt] at h₁ h₂ ⊢
        split at h₁
        · rename_i hab
          split at h₂
          · rename_i hbc
            have : a < c := lt_trans hab hbc
            simp [this]
          · split at h₂
            · simp at h₂
            · rename_i hcb hbc
              have hbc' : b = c := le_antisymm (not_lt.1 hbc) (not_lt.1 hcb)
              subst hbc'
              simp [hab]
        · split at h₁
          · simp at h₁
          · rename_i hba hab
            have hab' : a = b := le_antisymm (not_lt.1 hab) (not_lt.1 hba)
            subst hab'
            split at h₂
            · rename_i hac
              simp [hac]
            · split at h₂
              · simp at h₂
              · rename_i hca hac
                simp [hac, hca]
                exact ih h₁ h₂

theorem charListLt_connex {l₁ l₂ : List Char} (h₁ : charListLt l₁ l₂ = false)
    (h₂ : charListLt l₂ l₁ = false) : l₁ = l₂ := by
  induction l₁ generalizing l₂ with
  | nil => cases l₂ with
    | nil => rfl
    | cons b bs => simp [charListLt] at h₁
  | cons a as ih =>
    cases l₂ with
    | nil => simp [charListLt] at h₂
    | cons b bs =>
      simp only [charListLt] at h₁ h₂
      split at h₁
      · simp at h₁
      · rename_i hab
        split at h₁
        · rename_i hba
          simp [hba] at h₂
        · rename_i hba
          have : a = b := le_antisymm (not_lt.1 hba) (not_lt.1 hab)
          subst this
          simp only [lt_irrefl, if_false] at h₂
          rw [ih h₁ h₂]

theorem strLt_connex {a b : String} (h₁ : strLt a b = false)
    (h₂ : strLt b a = false) : a = b := by
  apply String.ext
  exact charListLt_connex h₁ h₂

theorem strLt_asymm {a b : String} (h : strLt a b = true) : strLt b a = false := by
  cases hba : strLt b a with
  | false => rfl
  | true =>
    have := charListLt_trans h hba
    rw [charListLt_irrefl] at this
    cases this

instance : IsTotal String strLeRel := by
  constructor
  intro a b
  unfold strLeRel strLe
  cases h : strLt b a with
  | false => left; rfl
  | true => right; rw [strLt_asymm h]; rfl

instance : IsTrans String strLeRel := by
  constructor
  intro a b c h₁ h₂
  unfold strLeRel strLe at h₁ h₂ ⊢
  simp only [Bool.not_eq_true'] at h₁ h₂ ⊢
  cases hca : strLt c a with
  | false => rfl
  | true =>
    cases hbc : strLt b c with
    | true =>
      have := charListLt_trans hbc hca
      rw [show charListLt b.data a.data = strLt b a from rfl, h₁] at this
      cases this
    | false =>
      have : b = c := strLt_connex hbc h₂
      subst this
      rw [hca] at h₁
      cases h₁

instance : IsAntisymm String strLeRel := by
  constructor
  intro a b h₁ h₂
  unfold strLeRel strLe at h₁ h₂
  simp only [Bool.not_eq_true'] at h₁ h₂
  exact strLt_connex h₂ h₁

theorem strLt_of_strLeRel_of_ne {a b : String} (h : strLeRel a b) (hne : a ≠ b) :
    strLt a b = true := by
  unfold strLeRel strLe at h
  simp only [Bool.not_eq_true'] at h
  cases hab : strLt a b with
  | true => rfl
  | false => exact absurd (strLt_connex hab h) hne

/-! ### Facts about `sortedDedup` -/

theorem sortedDedup_perm (l : List String) : (sortedDedup l).Perm l.dedup :=
  List.perm_insertionSort _ _

theorem mem_sortedDedup {a : String} {l : List String} :
    a ∈ sortedDedup l ↔ a ∈ l := by
  rw [(sortedDedup_perm l).mem_iff, List.mem_dedup]

theorem sortedDedup_nodup (l : List String) : (sortedDedup l).Nodup :=
  ((sortedDedup_perm l).nodup_iff).2 l.nodup_dedup

theorem sortedDedup_sorted (l : List String) :
    List.Sorted strLeRel (sortedDedup l) :=
  List.sorted_insertionSort _ _

theorem sortedDedup_pairwise_strLt (l : List String) :
    (sortedDedup l).Pairwise (fun a b => strLt a b = true) := by
  have h := List.Pairwise.and (sortedDedup_sorted l) (sortedDedup_nodup l)
  exact h.imp (fun hab => strLt_of_strLeRel_of_ne hab.1 hab.2)

theorem sortedDedup_eq_of_perm {l₁ l₂ : List String} (h : l₁.Perm l₂) :
    sortedDedup l₁ = sortedDedup l₂ :=
  List.eq_of_perm_of_sorted
    (((sortedDedup_perm l₁).trans h.dedup).trans (sortedDedup_perm l₂).symm)
    (sortedDedup_sorted l₁) (sortedDedup_sorted l₂)

/-! ### Duplicate detection -/

theorem detectAux_cons (occ : String → Nat) (k : String) (ks : List String) :
    detectAux occ (k :: ks) =
      if occ k + 1 = 2 then
        k :: detectAux (fun s => if s = k then occ k + 1 else occ s) ks
      else
        detectAux (fun s => if s = k then occ k + 1 else occ s) ks := by
  simp [detectAux]

theorem detectAux_count (ks : List String) : ∀ (occ : String → Nat) (v : String),
    (detectAux occ ks).count v =
      if occ v ≤ 1 ∧ 2 ≤ occ v + ks.count v then 1 else 0 := by
  induction ks with
  | nil =>
    intro occ v
    simp only [detectAux, List.count_nil]
    split <;> omega
  | cons k ks ih =>
    intro occ v
    rw [detectAux_cons]
    by_cases hvk : k = v
    · subst hvk
      rw [List.count_cons_self]
      split <;> rename_i h2
      · rw [List.count_cons_self, ih]
        simp only [if_pos rfl]
        split_ifs <;> omega
      · rw [ih]
        simp only [if_pos rfl]
        split_ifs <;> omega
    · have hne : v ≠ k := fun h => hvk h.symm
      rw [List.count_cons_of_ne hne]
      split <;> rename_i h2
      · rw [List.count_cons_of_ne hne, ih]
        simp only [if_neg hne]
      · rw [ih]
        simp only [if_neg hne]

theorem detectAux_eq_secondOccurrences (ks : List String) :
    ∀ pre : List String,
    detectAux (fun v => pre.count v) ks =
      (List.range ks.length).filterMap (fun i =>
        if pre.count (ks.getD i "") + (ks.take (i + 1)).count (ks.getD i "") = 2 then
          some (ks.getD i "")
        else none) := by
  induction ks with
  | nil => intro pre; simp [detectAux]
  | cons k ks ih =>
    intro pre
    rw [detectAux_cons]
    have hocc' : (fun s => if s = k then pre.count k + 1 else pre.count s)
        = fun v => (pre ++ [k]).count v := by
      funext s
      by_cases h : s = k <;>
        simp [h, List.count_append, List.count_cons, eq_comm]
    rw [hocc', ih (pre ++ [k])]
    rw [List.length_cons, List.range_succ_eq_map, List.filterMap_cons, List.filterMap_map]
    have hg0 : (if List.count ((k :: ks).getD 0 "") pre
          + List.count ((k :: ks).getD 0 "") (List.take (0 + 1) (k :: ks)) = 2 then
        some ((k :: ks).getD 0 "")
      else none)
        = if pre.count k + 1 = 2 then some k else none := by
      simp [List.count_cons]
    have hgs : ((fun i : Nat =>
        if List.count ((k :: ks).getD i "") pre
            + List.count ((k :: ks).getD i "") (List.take (i + 1) (k :: ks)) = 2 then
          some ((k :: ks).getD i "")
        else none) ∘ Nat.succ)
        = (fun i : Nat =>
          if List.count (ks.getD i "") (pre ++ [k])
              + List.count (ks.getD i "") (List.take (i + 1) ks) = 2 then
            some (ks.getD i "")
          else none) := by
      funext i
      simp only [Function.comp_apply, List.getD_cons_succ, List.take_succ_cons,
        List.count_cons, List.count_append, List.count_nil, List.count_singleton,
        Nat.succ_eq_add_one]
      exact if_congr (by omega) rfl rfl
    rw [hg0, hgs]
    by_cases h0 : pre.count k + 1 = 2
    · rw [if_pos h0, if_pos h0]
    · rw [if_neg h0, if_neg h0]

/-- C5: `detect_duplicate_keys` reports each repeated key value exactly
once, at the position where it is seen for the second time: the output
is exactly the sequence of key values taken at the positions whose
inclusive prefix holds the value twice, and a value occurs in the
output once when it occurs at least twice among the rows' key values
and not at all otherwise.  (The embedding is a pure function over the
row list, mirroring that the Python function only reads its input.) -/
theorem C5_detect_duplicate_keys_second_occurrence (rows : List Row) (key_field : String) :
    detect_duplicate_keys rows key_field =
      secondOccurrenceKeys (rows.map (fun row => rowGetD row key_field "")) ∧
    ∀ v, (detect_duplicate_keys rows key_field).count v =
      if 2 ≤ (rows.map (fun row => rowGetD row key_field "")).count v then 1 else 0 := by
  constructor
  · have h := detectAux_eq_secondOccurrences (rows.map (fun row => rowGetD row key_field "")) []
    unfold detect_duplicate_keys secondOccurrenceKeys
    have hz : (fun _ : String => 0) = (fun v => List.count v ([] : List String)) := rfl
    rw [hz, h]
    simp
  · intro v
    unfold detect_duplicate_keys
    rw [detectAux_count]
    simp

/-! ### Row alignment machinery -/

theorem keyLookup_some_mem {rows : List Row} {key_field k : String} {r : Row}
    (h : keyLookup rows key_field k = some r) :
    r ∈ rows ∧ rowGetD r key_field "" = k := by
  unfold keyLookup at h
  refine ⟨?_, ?_⟩
  · have := List.mem_of_find?_eq_some h
    exact List.mem_reverse.1 this
  · have := List.find?_some h
    simpa using this

theorem keyLookup_mem_allKeys_left {rows_a rows_b : List Row} {key_field k : String}
    {r : Row} (h : keyLookup rows_a key_field k = some r) :
    k ∈ allKeys rows_a rows_b key_field := by
  obtain ⟨hmem, hval⟩ := keyLookup_some_mem h
  unfold allKeys
  rw [mem_sortedDedup]
  exact List.mem_map.2 ⟨r, List.mem_append_left _ hmem, hval⟩

theorem keyLookup_mem_allKeys_right {rows_a rows_b : List Row} {key_field k : String}
    {r : Row} (h : keyLookup rows_b key_field k = some r) :
    k ∈ allKeys rows_a rows_b key_field := by
  obtain ⟨hmem, hval⟩ := keyLookup_some_mem h
  unfold allKeys
  rw [mem_sortedDedup]
  exact List.mem_map.2 ⟨r, List.mem_append_right _ hmem, hval⟩

theorem mismatchFor_eq_some {row_a row_b : Row} {key_field k c : String} {d : Difference} :
    mismatchFor row_a row_b key_field k c = some d ↔
      ¬ c = key_field ∧ ¬ rowGetD row_a c "" = rowGetD row_b c "" ∧
      d = { POLICY_NO := k, column := c, value_a := rowGetD row_a c "",
            value_b := rowGetD row_b c "", difference_type := VALUE_MISMATCH } := by
  unfold mismatchFor
  by_cases h1 : c = key_field
  · rw [if_pos (by simpa using h1)]
    simp [h1]
  · rw [if_neg (by simpa using h1)]
    dsimp only
    by_cases h2 : rowGetD row_a c "" = rowGetD row_b c ""
    · rw [if_neg (by simp [h2])]
      simp [h1, h2]
    · rw [if_pos (by simpa using h2)]
      constructor
      · intro h
        cases h
        exact ⟨h1, h2, rfl⟩
      · rintro ⟨-, -, rfl⟩
        rfl

theorem keyDifferences_policy {rows_a rows_b : List Row}
    {key_field name_a name_b k : String} {d : Difference}
    (hd : d ∈ keyDifferences rows_a rows_b key_field name_a name_b k) :
    d.POLICY_NO = k := by
  unfold keyDifferences at hd
  cases hla : keyLookup rows_a key_field k with
  | none =>
    rw [hla] at hd
    simp only [List.mem_singleton] at hd
    subst hd
    rfl
  | some row_a =>
    rw [hla] at hd
    cases hlb : keyLookup rows_b key_field k with
    | none =>
      rw [hlb] at hd
      simp only [List.mem_singleton] at hd
      subst hd
      rfl
    | some row_b =>
      rw [hlb] at hd
      obtain ⟨c, _, hc⟩ := List.mem_filterMap.1 hd
      obtain ⟨-, -, hdef⟩ := mismatchFor_eq_some.1 hc
      rw [hdef]

theorem keyDifferences_shape {rows_a rows_b : List Row}
    {key_field name_a name_b k : String} {d : Difference}
    (hd : d ∈ keyDifferences rows_a rows_b key_field name_a name_b k) :
    (d.difference_type = MISSING_IN_A ∧ d.column = "__missing__") ∨
    (d.difference_type = MISSING_IN_B ∧ d.column = "__missing__") ∨
    (d.difference_type = VALUE_MISMATCH ∧ d.column ∈ allColumns rows_a rows_b ∧
      ¬ d.column = key_field) := by
  unfold keyDifferences at hd
  cases hla : keyLookup rows_a key_field k with
  | none =>
    rw [hla] at hd
    simp only [List.mem_singleton] at hd
    subst hd
    exact Or.inl ⟨rfl, rfl⟩
  | some row_a =>
    rw [hla] at hd
    cases hlb : keyLookup rows_b key_field k with
    | none =>
      rw [hlb] at hd
      simp only [List.mem_singleton] at hd
      subst hd
      exact Or.inr (Or.inl ⟨rfl, rfl⟩)
    | some row_b =>
      rw [hlb] at hd
      obtain ⟨c, hcmem, hc⟩ := List.mem_filterMap.1 hd
      refine Or.inr (Or.inr ?_)
      obtain ⟨h1, -, hdef⟩ := mismatchFor_eq_some.1 hc
      rw [hdef]
      exact ⟨rfl, hcmem, h1⟩

theorem filter_flatMap_eq_of_nodup {L : List String} (hL : L.Nodup)
    (f : String → List Difference)
    (hf : ∀ k' d, d ∈ f k' → d.POLICY_NO = k') (k : String) :
    ((L.flatMap f).filter (fun d => d.POLICY_NO == k)) =
      if k ∈ L then f k else [] := by
  induction L with
  | nil => simp
  | cons a L ih =>
    rw [List.flatMap_cons, List.filter_append]
    have hih := ih (List.Nodup.of_cons hL)
    by_cases hak : a = k
    · subst hak
      have h1 : (f a).filter (fun d => d.POLICY_NO == a) = f a := by
        rw [List.filter_eq_self]
        intro d hd
        simp [hf a d hd]
      have h2 : a ∉ L := (List.nodup_cons.1 hL).1
      rw [h1, hih, if_neg h2, if_pos (List.mem_cons_self a L)]
      simp
    · have h1 : (f a).filter (fun d => d.POLICY_NO == k) = [] := by
        rw [List.filter_eq_nil_iff]
        intro d hd
        simp [hf a d hd, hak]
      rw [h1, hih]
      by_cases hkL : k ∈ L
      · rw [if_pos hkL, if_pos (List.mem_cons_of_mem a hkL)]
        simp
      · rw [if_neg hkL, if_neg ?_]
        · simp
        · intro hmem
          rcases List.mem_cons.1 hmem with h | h
          · exact hak h.symm
          · exact hkL h

theorem computeDifferences_filter_key (rows_a rows_b : List Row)
    (key_field name_a name_b k : String) :
    ((computeDifferences rows_a rows_b key_field name_a name_b).filter
        (fun d => d.POLICY_NO == k)) =
      if k ∈ allKeys rows_a rows_b key_field then
        keyDifferences rows_a rows_b key_field name_a name_b k
      else [] := by
  unfold computeDifferences
  exact filter_flatMap_eq_of_nodup (sortedDedup_nodup _) _
    (fun k' d hd => keyDifferences_policy hd) k

theorem compare_ok_eq {file_a file_b : CsvFile} {key_field : String}
    {rows_a rows_b : List Row} {diffs : List Difference}
    (hra : read_csv_sorted file_a key_field = .ok rows_a)
    (hrb : read_csv_sorted file_b key_field = .ok rows_b)
    (hcmp : compare_csv_files file_a file_b key_field = .ok diffs) :
    diffs = computeDifferences rows_a rows_b key_field file_a.name file_b.name := by
  unfold compare_csv_files at hcmp
  rw [hra, hrb] at hcmp
  dsimp only at hcmp
  by_cases h : (detect_duplicate_keys rows_a key_field).isEmpty = true
      ∧ (detect_duplicate_keys rows_b key_field).isEmpty = true
  · rw [if_pos h] at hcmp
    cases hcmp
    rfl
  · rw [if_neg h] at hcmp
    cases hcmp

theorem keyDifferences_missing_b {rows_a rows_b : List Row}
    {key_field k : String} (name_a name_b : String) {row_a : Row}
    (hla : keyLookup rows_a key_field k = some row_a)
    (hlb : keyLookup rows_b key_field k = none) :
    keyDifferences rows_a rows_b key_field name_a name_b k =
      [{ POLICY_NO := k
         column := "__missing__"
         value_a := "Данные файла 1: "
           ++ row_preview (allColumns rows_a rows_b) key_field row_a
         value_b := "Нет записи в " ++ name_b
         difference_type := MISSING_IN_B }] := by
  unfold keyDifferences
  rw [hla, hlb]

theorem keyDifferences_matched {rows_a rows_b : List Row}
    {key_field k : String} (name_a name_b : String) {row_a row_b : Row}
    (hla : keyLookup rows_a key_field k = some row_a)
    (hlb : keyLookup rows_b key_field k = some row_b) :
    keyDifferences rows_a rows_b key_field name_a name_b k =
      (allColumns rows_a rows_b).filterMap (mismatchFor row_a row_b key_field k) := by
  unfold keyDifferences
  rw [hla, hlb]

/-! ### Claims about the reconciler -/

/-- C1 counterexample: on a key present only in source A the code puts
the contextual description of A's row into `value_a` and the fixed
no-record message into `value_b` — the opposite of the claimed field
assignment. -/
theorem C1_counterexample_fields_swapped :
    compare_csv_files sampleA sampleB "K" =
      .ok [{ POLICY_NO := "001"
             column := "__missing__"
             value_a := "Данные файла 1: Amount=100"
             value_b := "Нет записи в b.csv"
             difference_type := MISSING_IN_B }] ∧
    ("Данные файла 1: Amount=100" : String) ≠ "Нет записи в b.csv" := by
  exact ⟨by rfl, by decide⟩

/-- C1 (amended): for every key present only in source A, the comparison
emits exactly one Difference for that key: kind `MISSING_IN_B`, column
the row-absent sentinel, `value_a` the contextual description
summarizing A's row content (non-key `column=value` pairs comma-joined,
or the fixed "no data" text inside the preview when all are empty) and
`value_b` the fixed no-record message naming file B. -/
theorem C1_missing_in_b_fields {file_a file_b : CsvFile} {key_field : String}
    {rows_a rows_b : List Row} {diffs : List Difference} {k : String} {row_a : Row}
    (hra : read_csv_sorted file_a key_field = .ok rows_a)
    (hrb : read_csv_sorted file_b key_field = .ok rows_b)
    (hcmp : compare_csv_files file_a file_b key_field = .ok diffs)
    (hla : keyLookup rows_a key_field k = some row_a)
    (hlb : keyLookup rows_b key_field k = none) :
    diffs.filter (fun d => d.POLICY_NO == k) =
      [{ POLICY_NO := k
         column := "__missing__"
         value_a := "Данные файла 1: "
           ++ row_preview (allColumns rows_a rows_b) key_field row_a
         value_b := "Нет записи в " ++ file_b.name
         difference_type := MISSING_IN_B }] := by
  rw [compare_ok_eq hra hrb hcmp, computeDifferences_filter_key,
    if_pos (keyLookup_mem_allKeys_left hla),
    keyDifferences_missing_b file_a.name file_b.name hla hlb]

theorem C1_missing_in_b_fields_witness :
    List.filter (fun d => d.POLICY_NO == "001")
        [({ POLICY_NO := "001"
            column := "__missing__"
            value_a := "Данные файла 1: Amount=100"
            value_b := "Нет записи в b.csv"
            difference_type := MISSING_IN_B } : Difference)] =
      [{ POLICY_NO := "001"
         column := "__missing__"
         value_a := "Данные файла 1: "
           ++ row_preview
               (allColumns [[("K", "001"), ("Amount", "100")]] []) "K"
               [("K", "001"), ("Amount", "100")]
         value_b := "Нет записи в " ++ sampleB.name
         difference_type := MISSING_IN_B }] :=
  @C1_missing_in_b_fields sampleA sampleB "K"
    [[("K", "001"), ("Amount", "100")]] [] _ "001" [("K", "001"), ("Amount", "100")]
    (by rfl) (by rfl) (by rfl) (by rfl) (by rfl)

theorem mismatchFor_isSome {row_a row_b : Row} {key_field k c : String} :
    (mismatchFor row_a row_b key_field k c).isSome =
      (!(c == key_field) && !(rowGetD row_a c "" == rowGetD row_b c "")) := by
  unfold mismatchFor
  by_cases h1 : c = key_field
  · simp [h1]
  · by_cases h2 : rowGetD row_a c "" = rowGetD row_b c "" <;> simp [h1, h2]

/-- C2: for every key present in both loaded datasets, the number of
`VALUE_MISMATCH` differences emitted for that key equals the number of
non-key columns of the column universe whose normalized values (missing
read as empty text) differ between the two rows; and every
`VALUE_MISMATCH` the comparison emits for that key is at a column whose
two values really differ, so equal columns contribute nothing. -/
theorem C2_value_mismatch_count {file_a file_b : CsvFile} {key_field : String}
    {rows_a rows_b : List Row} {diffs : List Difference} {k : String} {row_a row_b : Row}
    (hra : read_csv_sorted file_a key_field = .ok rows_a)
    (hrb : read_csv_sorted file_b key_field = .ok rows_b)
    (hcmp : compare_csv_files file_a file_b key_field = .ok diffs)
    (hla : keyLookup rows_a key_field k = some row_a)
    (hlb : keyLookup rows_b key_field k = some row_b) :
    (diffs.filter (fun d => d.POLICY_NO == k && d.difference_type == VALUE_MISMATCH)).length =
      ((allColumns rows_a rows_b).filter (fun c =>
        !(c == key_field) && !(rowGetD row_a c "" == rowGetD row_b c ""))).length ∧
    ∀ d ∈ diffs, d.POLICY_NO = k → d.difference_type = VALUE_MISMATCH →
      rowGetD row_a d.column "" ≠ rowGetD row_b d.column "" := by
  have hdiffs := compare_ok_eq hra hrb hcmp
  constructor
  · have hsplit : diffs.filter (fun d => d.POLICY_NO == k && d.difference_type == VALUE_MISMATCH)
        = (diffs.filter (fun d => d.POLICY_NO == k)).filter
            (fun d => d.difference_type == VALUE_MISMATCH) := by
      rw [List.filter_filter]
      congr 1
      funext d
      rw [Bool.and_comm]
    rw [hsplit, hdiffs, computeDifferences_filter_key,
      if_pos (keyLookup_mem_allKeys_left hla),
      keyDifferences_matched file_a.name file_b.name hla hlb]
    have hall : ((allColumns rows_a rows_b).filterMap
          (mismatchFor row_a row_b key_field k)).filter
          (fun d => d.difference_type == VALUE_MISMATCH)
        = (allColumns rows_a rows_b).filterMap (mismatchFor row_a row_b key_field k) := by
      rw [List.filter_eq_self]
      intro d hd
      obtain ⟨c, hcmem, hc⟩ := List.mem_filterMap.1 hd
      obtain ⟨-, -, hdef⟩ := mismatchFor_eq_some.1 hc
      rw [hdef]
      simp
    rw [hall, List.length_filterMap_eq_countP, ← List.countP_eq_length_filter]
    exact List.countP_congr (fun c hc => by rw [mismatchFor_isSome])
  · intro d hd hpk htype
    rw [hdiffs] at hd
    obtain ⟨k', hk'mem, hdk⟩ := List.mem_flatMap.1 hd
    have hpol := keyDifferences_policy hdk
    have hkk : k' = k := by rw [← hpol, ← hpk]
    subst hkk
    rw [keyDifferences_matched file_a.name file_b.name hla hlb] at hdk
    obtain ⟨c, hcmem, hc⟩ := List.mem_filterMap.1 hdk
    obtain ⟨-, hne, hdef⟩ := mismatchFor_eq_some.1 hc
    subst hdef
    exact hne

theorem C2_value_mismatch_count_witness :
    (List.filter (fun d => d.POLICY_NO == "001" && d.difference_type == VALUE_MISMATCH)
        [(⟨"001", "Amount", "100", "150", VALUE_MISMATCH⟩ : Difference),
         ⟨"002", "__missing__", "Нет записи в a.csv",
           "Данные файла 2: Amount=200", MISSING_IN_A⟩]).length =
      (List.filter (fun c => !(c == "K")
          && !(rowGetD [("K", "001"), ("Amount", "100")] c ""
                == rowGetD [("K", "001"), ("Amount", "150")] c ""))
        (allColumns [[("K", "001"), ("Amount", "100")]]
          [[("K", "001"), ("Amount", "150")], [("K", "002"), ("Amount", "200")]])).length ∧
    ∀ d ∈ [(⟨"001", "Amount", "100", "150", VALUE_MISMATCH⟩ : Difference),
           ⟨"002", "__missing__", "Нет записи в a.csv",
             "Данные файла 2: Amount=200", MISSING_IN_A⟩],
      d.POLICY_NO = "001" → d.difference_type = VALUE_MISMATCH →
      rowGetD [("K", "001"), ("Amount", "100")] d.column ""
        ≠ rowGetD [("K", "001"), ("Amount", "150")] d.column "" :=
  @C2_value_mismatch_count sampleA sampleB2 "K"
    [[("K", "001"), ("Amount", "100")]]
    [[("K", "001"), ("Amount", "150")], [("K", "002"), ("Amount", "200")]]
    [⟨"001", "Amount", "100", "150", VALUE_MISMATCH⟩,
     ⟨"002", "__missing__", "Нет записи в a.csv",
       "Данные файла 2: Amount=200", MISSING_IN_A⟩]
    "001" [("K", "001"), ("Amount", "100")] [("K", "001"), ("Amount", "150")]
    (by rfl) (by rfl) (by rfl) (by rfl) (by rfl)

/-- C3: the difference sequence is emitted in a fixed, reproducible
order — strictly ascending by key value in code-point text order, and
between two records of the same key (which are then both value
mismatches) strictly ascending by column name. -/
theorem C3_output_order {file_a file_b : CsvFile} {key_field : String}
    {rows_a rows_b : List Row} {diffs : List Difference}
    (hra : read_csv_sorted file_a key_field = .ok rows_a)
    (hrb : read_csv_sorted file_b key_field = .ok rows_b)
    (hcmp : compare_csv_files file_a file_b key_field = .ok diffs) :
    diffs.Pairwise (fun d₁ d₂ =>
      strLt d₁.POLICY_NO d₂.POLICY_NO = true ∨
      (d₁.POLICY_NO = d₂.POLICY_NO ∧ strLt d₁.column d₂.column = true)) := by
  rw [compare_ok_eq hra hrb hcmp]
  unfold computeDifferences
  rw [List.pairwise_flatMap]
  constructor
  · intro k hk
    unfold keyDifferences
    cases hla : keyLookup rows_a key_field k with
    | none => simp
    | some row_a =>
      cases hlb : keyLookup rows_b key_field k with
      | none => simp
      | some row_b =>
        rw [List.pairwise_filterMap]
        have hcols : (allColumns rows_a rows_b).Pairwise (fun a b => strLt a b = true) :=
          sortedDedup_pairwise_strLt _
        refine hcols.imp ?_
        intro c₁ c₂ hc x hx y hy
        rw [Option.mem_def] at hx hy
        obtain ⟨-, -, hxd⟩ := mismatchFor_eq_some.1 hx
        obtain ⟨-, -, hyd⟩ := mismatchFor_eq_some.1 hy
        subst hxd
        subst hyd
        exact Or.inr ⟨rfl, hc⟩
  · have hkeys : (allKeys rows_a rows_b key_field).Pairwise (fun a b => strLt a b = true) :=
      sortedDedup_pairwise_strLt _
    refine hkeys.imp ?_
    intro k₁ k₂ hkk x hx y hy
    left
    rw [keyDifferences_policy hx, keyDifferences_policy hy]
    exact hkk

theorem C3_output_order_witness :
    List.Pairwise (fun d₁ d₂ : Difference =>
      strLt d₁.POLICY_NO d₂.POLICY_NO = true ∨
      (d₁.POLICY_NO = d₂.POLICY_NO ∧ strLt d₁.column d₂.column = true))
      [⟨"001", "Amount", "100", "150", VALUE_MISMATCH⟩,
       ⟨"002", "__missing__", "Нет записи в a.csv",
         "Данные файла 2: Amount=200", MISSING_IN_A⟩] :=
  @C3_output_order sampleA sampleB2 "K"
    [[("K", "001"), ("Amount", "100")]]
    [[("K", "001"), ("Amount", "150")], [("K", "002"), ("Amount", "200")]]
    [⟨"001", "Amount", "100", "150", VALUE_MISMATCH⟩,
     ⟨"002", "__missing__", "Нет записи в a.csv",
       "Данные файла 2: Amount=200", MISSING_IN_A⟩]
    (by rfl) (by rfl) (by rfl)

theorem detect_duplicate_keys_ne_empty {rows : List Row} {key_field : String}
    (h : ∃ v, 2 ≤ (rows.map (fun r => rowGetD r key_field "")).count v) :
    ¬ (detect_duplicate_keys rows key_field).isEmpty = true := by
  obtain ⟨v, hv⟩ := h
  have hc : (detect_duplicate_keys rows key_field).count v = 1 := by
    unfold detect_duplicate_keys
    rw [detectAux_count]
    rw [if_pos ⟨Nat.zero_le 1, by omega⟩]
  intro hemp
  rw [List.isEmpty_iff] at hemp
  rw [hemp] at hc
  simp at hc

/-- C4: when either loaded side repeats a key value, the comparison
fails with the duplicate-key `CsvComparisonError` — whose message is
built from the duplicate lists of BOTH sides (each side contributes its
own report exactly when it has duplicates; neither side short-circuits
the other) — and no difference list is returned. -/
theorem C4_duplicate_keys_abort {file_a file_b : CsvFile} {key_field : String}
    {rows_a rows_b : List Row}
    (hra : read_csv_sorted file_a key_field = .ok rows_a)
    (hrb : read_csv_sorted file_b key_field = .ok rows_b)
    (hdup : (∃ v, 2 ≤ (rows_a.map (fun r => rowGetD r key_field "")).count v)
          ∨ (∃ v, 2 ≤ (rows_b.map (fun r => rowGetD r key_field "")).count v)) :
    compare_csv_files file_a file_b key_field =
      .error ⟨duplicateErrorMessage file_a.name file_b.name
        (detect_duplicate_keys rows_a key_field)
        (detect_duplicate_keys rows_b key_field)⟩ ∧
    ∀ ds : List Difference, compare_csv_files file_a file_b key_field ≠ .ok ds := by
  have hcond : ¬ ((detect_duplicate_keys rows_a key_field).isEmpty = true
      ∧ (detect_duplicate_keys rows_b key_field).isEmpty = true) := by
    rcases hdup with h | h
    · exact fun hc => detect_duplicate_keys_ne_empty h hc.1
    · exact fun hc => detect_duplicate_keys_ne_empty h hc.2
  have hmain : compare_csv_files file_a file_b key_field =
      .error ⟨duplicateErrorMessage file_a.name file_b.name
        (detect_duplicate_keys rows_a key_field)
        (detect_duplicate_keys rows_b key_field)⟩ := by
    unfold compare_csv_files
    rw [hra, hrb]
    dsimp only
    rw [if_neg hcond]
  refine ⟨hmain, fun ds h => ?_⟩
  rw [hmain] at h
  cases h

theorem C4_duplicate_keys_abort_witness :
    (compare_csv_files sampleDupA sampleDupB "K" =
      .error ⟨duplicateErrorMessage sampleDupA.name sampleDupB.name
        (detect_duplicate_keys
          [[("K", "001"), ("Amount", "100")], [("K", "001"), ("Amount", "150")]] "K")
        (detect_duplicate_keys
          [[("K", "002"), ("Amount", "10")], [("K", "002"), ("Amount", "20")]] "K")⟩ ∧
    ∀ ds : List Difference, compare_csv_files sampleDupA sampleDupB "K" ≠ .ok ds) :=
  @C4_duplicate_keys_abort sampleDupA sampleDupB "K"
    [[("K", "001"), ("Amount", "100")], [("K", "001"), ("Amount", "150")]]
    [[("K", "002"), ("Amount", "10")], [("K", "002"), ("Amount", "20")]]
    (by rfl) (by rfl) (Or.inl ⟨"001", by decide⟩)

/-! ### Row access lemmas for the loader -/

theorem rowGet_eq_none_of_all {r : Row} {c : String}
    (h : ∀ e ∈ r, e.1 ≠ c) : rowGet r c = none := by
  unfold rowGet
  have hf : r.find? (fun entry => entry.1 == c) = none :=
    List.find?_eq_none.2 (fun e he => by simp [h e he])
  rw [hf]
  rfl

theorem mem_rowPop {r : Row} {c : String} {e : String × String}
    (he : e ∈ rowPop r c) : e ∈ r ∧ e.1 ≠ c := by
  unfold rowPop at he
  have := List.mem_filter.1 he
  refine ⟨this.1, ?_⟩
  simpa using this.2

theorem rowGet_rowSet_self (r : Row) (c v : String) :
    rowGet (rowSet r c v) c = some v := by
  unfold rowSet
  unfold rowGet
  rw [List.find?_append]
  have h1 : (rowPop r c).find? (fun entry => entry.1 == c) = none :=
    List.find?_eq_none.2 (fun e he => by simp [(mem_rowPop he).2])
  rw [h1]
  simp

theorem rowGet_renameKey_actual {actual key_field : String} (row : Row)
    (hne : actual ≠ key_field) :
    rowGet (renameKey actual key_field row) actual = none := by
  unfold renameKey
  rw [if_pos (by simpa using hne)]
  apply rowGet_eq_none_of_all
  intro e he
  unfold rowSet at he
  rcases List.mem_append.1 he with h | h
  · exact (mem_rowPop (mem_rowPop h).1).2
  · have : e = (key_field, rowGetD row actual "") := by simpa using h
    rw [this]
    exact fun hcontra => hne hcontra.symm

theorem rowGetD_renameKey_key {actual key_field : String} (row : Row)
    (hne : actual ≠ key_field) :
    rowGetD (renameKey actual key_field row) key_field "" = rowGetD row actual "" := by
  unfold renameKey
  rw [if_pos (by simpa using hne)]
  unfold rowGetD
  rw [rowGet_rowSet_self]
  rfl

/-- C6: the loader resolves the key column by a two-pass search — an
exact match is preferred and returns the key name itself; otherwise a
case-folded match is used; if neither exists the loader fails with the
key-column-missing `CsvComparisonError` — and when the fallback fires,
every returned row stores the key value under the canonical key name
(the value that sat under the physical column) with the physical column
name removed. -/
theorem C6_key_resolution (fieldnames : List String) (key_field file_name : String)
    (file : CsvFile) :
    (key_field ∈ fieldnames →
      resolve_key_field fieldnames key_field file_name = .ok key_field) ∧
    (key_field ∉ fieldnames →
      (∃ f ∈ fieldnames, casefold f = casefold key_field) →
      ∃ f, resolve_key_field fieldnames key_field file_name = .ok f ∧
        f ∈ fieldnames ∧ casefold f = casefold key_field) ∧
    ((∀ f ∈ fieldnames, casefold f ≠ casefold key_field) →
      resolve_key_field fieldnames key_field file_name =
        .error ⟨"В файле " ++ file_name ++ " отсутствует ключевой столбец '"
          ++ key_field ++ "'."⟩) ∧
    (∀ actual rows, resolve_key_field file.header key_field file.name = .ok actual →
      actual ≠ key_field →
      read_csv_sorted file key_field = .ok rows →
      ∀ r ∈ rows, rowGet r actual = none ∧
        ∃ orig ∈ file.records, r = renameKey actual key_field orig ∧
          rowGetD r key_field "" = rowGetD orig actual "") := by
  refine ⟨?_, ?_, ?_, ?_⟩
  · intro hmem
    have hsome : (fieldnames.find? (fun field => field == key_field)).isSome :=
      List.find?_isSome.2 ⟨key_field, hmem, by simp⟩
    obtain ⟨f, hf⟩ := Option.isSome_iff_exists.1 hsome
    have hfeq : f = key_field := by simpa using List.find?_some hf
    unfold resolve_key_field
    rw [hf, hfeq]
  · intro hmem hcf
    have hnone : fieldnames.find? (fun field => field == key_field) = none :=
      List.find?_eq_none.2 (fun f hf => by
        simp only [beq_iff_eq]
        exact fun h => hmem (h ▸ hf))
    obtain ⟨f₀, hf₀mem, hf₀⟩ := hcf
    have hsome : (fieldnames.find? (fun field => casefold field == casefold key_field)).isSome :=
      List.find?_isSome.2 ⟨f₀, hf₀mem, by simp [hf₀]⟩
    obtain ⟨f, hf⟩ := Option.isSome_iff_exists.1 hsome
    refine ⟨f, ?_, List.mem_of_find?_eq_some hf, by simpa using List.find?_some hf⟩
    unfold resolve_key_field
    rw [hnone, hf]
  · intro hall
    have hnone : fieldnames.find? (fun field => field == key_field) = none :=
      List.find?_eq_none.2 (fun f hf => by
        simp only [beq_iff_eq]
        exact fun h => hall f hf (by rw [h]))
    have hnone2 : fieldnames.find? (fun field => casefold field == casefold key_field) = none :=
      List.find?_eq_none.2 (fun f hf => by simp [hall f hf])
    unfold resolve_key_field
    rw [hnone, hnone2]
  · intro actual rows hres hne hread
    unfold read_csv_sorted at hread
    rw [hres] at hread
    cases hread
    intro r hr
    have hperm := List.perm_insertionSort (rowKeyLe key_field)
      (file.records.map (renameKey actual key_field))
    have hrmem : r ∈ file.records.map (renameKey actual key_field) := hperm.mem_iff.1 hr
    obtain ⟨orig, horig, hrename⟩ := List.mem_map.1 hrmem
    refine ⟨?_, orig, horig, hrename.symm, ?_⟩
    · rw [← hrename]
      exact rowGet_renameKey_actual orig hne
    · rw [← hrename]
      exact rowGetD_renameKey_key orig hne

theorem C6_key_resolution_witness :
    (∃ f, resolve_key_field ["Policy_no", "Amount"] "POLICY_NO" "c.csv" = .ok f ∧
      f ∈ ["Policy_no", "Amount"] ∧ casefold f = casefold "POLICY_NO") ∧
    resolve_key_field ["X"] "POLICY_NO" "c.csv" =
      .error ⟨"В файле c.csv отсутствует ключевой столбец 'POLICY_NO'."⟩ ∧
    rowGet [("Amount", "100"), ("POLICY_NO", "001")] "Policy_no" = none := by
  have h := C6_key_resolution ["Policy_no", "Amount"] "POLICY_NO" "c.csv" sampleLower
  have herr := C6_key_resolution ["X"] "POLICY_NO" "c.csv" sampleLower
  refine ⟨h.2.1 (by decide) ⟨"Policy_no", by decide, by decide⟩,
    herr.2.2.1 (by decide), ?_⟩
  have h4app := h.2.2.2 "Policy_no" [[("Amount", "100"), ("POLICY_NO", "001")]]
    (by rfl) (by decide) (by rfl)
  exact (h4app [("Amount", "100"), ("POLICY_NO", "001")] (by decide)).1

/-! ### Error taxonomy, aggregation and report writing -/

/-- C7 counterexample: a key-column-missing failure and an empty-report
failure produce errors of the very same kind (the module's single
exception class); the two conditions differ only in their message
strings, so a caller cannot branch on the error kind alone. -/
theorem C7_counterexample_single_kind :
    resolve_key_field ["X"] "K" "a.csv" =
      .error ⟨"В файле a.csv отсутствует ключевой столбец 'K'."⟩ ∧
    write_field_report [] "out.csv" =
      .error ⟨"Отчёт нельзя сохранить: различия отсутствуют."⟩ ∧
    errorClass ⟨"В файле a.csv отсутствует ключевой столбец 'K'."⟩ =
      errorClass ⟨"Отчёт нельзя сохранить: различия отсутствуют."⟩ ∧
    ("В файле a.csv отсутствует ключевой столбец 'K'." : String) ≠
      "Отчёт нельзя сохранить: различия отсутствуют." :=
  ⟨by rfl, by rfl, rfl, by decide⟩

/-- C7 (amended): every error the core raises is an instance of the one
typed exception class `CsvComparisonError` — so a caller can tell core
errors from unrelated errors by that class — but all failure modes
share that single kind and an error value carries nothing beyond its
message string, so the seven failure categories are distinguishable
only by message text, not by kind. -/
theorem C7_single_error_class :
    (∀ e₁ e₂ : CsvComparisonError, errorClass e₁ = errorClass e₂) ∧
    (∀ e₁ e₂ : CsvComparisonError, e₁.message = e₂.message → e₁ = e₂) := by
  refine ⟨fun e₁ e₂ => rfl, fun e₁ e₂ h => ?_⟩
  cases e₁
  cases e₂
  cases h
  rfl

theorem C7_single_error_class_witness :
    (⟨"сообщение"⟩ : CsvComparisonError) = ⟨"сообщение"⟩ :=
  C7_single_error_class.2 ⟨"сообщение"⟩ ⟨"сообщение"⟩ rfl

/-- C8: `summarize_differences_by_field` is order-independent in its
input — permuting the difference sequence yields the identical summary
row sequence, counters and order included. -/
theorem C8_summarize_perm_invariant {l₁ l₂ : List Difference} (h : l₁.Perm l₂) :
    summarize_differences_by_field l₁ = summarize_differences_by_field l₂ := by
  unfold summarize_differences_by_field
  rw [sortedDedup_eq_of_perm (h.map displayField)]
  apply List.map_congr_left
  intro field_name hmem
  have hflt : ∀ p : Difference → Bool, (l₁.filter p).length = (l₂.filter p).length := by
    intro p
    rw [← List.countP_eq_length_filter, ← List.countP_eq_length_filter]
    exact h.countP_eq p
  have hgrp : ∀ q : Difference → Bool,
      ((l₁.filter (fun diff => displayField diff == field_name)).filter q).length =
      ((l₂.filter (fun diff => displayField diff == field_name)).filter q).length := by
    intro q
    rw [List.filter_filter, List.filter_filter]
    exact hflt _
  simp only [SummaryRow.mk.injEq]
  exact ⟨trivial, hflt _, hgrp _, hgrp _, hgrp _⟩

theorem C8_summarize_perm_invariant_witness :
    summarize_differences_by_field
        [⟨"001", "Amount", "100", "120", VALUE_MISMATCH⟩,
         ⟨"002", "__missing__", "Нет записи", "Данные", MISSING_IN_B⟩] =
      summarize_differences_by_field
        [⟨"002", "__missing__", "Нет записи", "Данные", MISSING_IN_B⟩,
         ⟨"001", "Amount", "100", "120", VALUE_MISMATCH⟩] :=
  C8_summarize_perm_invariant (List.Perm.swap _ _ _)

/-- C9: a report requested for an empty difference sequence with a set
destination fails with the empty-report `CsvComparisonError`, and no
report content is produced for the destination. -/
theorem C9_empty_report_error (output_path : String) (hpath : output_path ≠ "") :
    write_field_report [] output_path =
      .error ⟨"Отчёт нельзя сохранить: различия отсутствуют."⟩ ∧
    ∀ content : List (List String), write_field_report [] output_path ≠ .ok content := by
  have hmain : write_field_report [] output_path =
      .error ⟨"Отчёт нельзя сохранить: различия отсутствуют."⟩ := by
    unfold write_field_report
    rw [if_neg hpath]
    rfl
  refine ⟨hmain, fun content hcon => ?_⟩
  rw [hmain] at hcon
  cases hcon

theorem C9_empty_report_error_witness :
    write_field_report [] "out.csv" =
      .error ⟨"Отчёт нельзя сохранить: различия отсутствуют."⟩ ∧
    ∀ content : List (List String), write_field_report [] "out.csv" ≠ .ok content :=
  C9_empty_report_error "out.csv" (by decide)

/-- C10 counterexample: with a data column literally named
`"__missing__"`, the comparison emits a `VALUE_MISMATCH` difference
whose column equals the row-absent sentinel, so "column is the sentinel
iff the kind is a missing kind" fails as stated. -/
theorem C10_counterexample_sentinel_collision :
    compare_csv_files sampleSentinelA sampleSentinelB "K" =
      .ok [{ POLICY_NO := "1"
             column := "__missing__"
             value_a := "x"
             value_b := "y"
             difference_type := VALUE_MISMATCH }] ∧
    VALUE_MISMATCH ≠ MISSING_IN_A ∧ VALUE_MISMATCH ≠ MISSING_IN_B :=
  ⟨by rfl, by decide, by decide⟩

/-- C10 (amended): every emitted Difference has one of the three kinds;
a missing-row kind always carries the sentinel column; a
`VALUE_MISMATCH` always carries a non-key column of the column
universe; and provided no input column is literally named
`"__missing__"`, the column equals the sentinel exactly when the kind
is a missing-row kind. -/
theorem C10_difference_well_formed {file_a file_b : CsvFile} {key_field : String}
    {rows_a rows_b : List Row} {diffs : List Difference}
    (hra : read_csv_sorted file_a key_field = .ok rows_a)
    (hrb : read_csv_sorted file_b key_field = .ok rows_b)
    (hcmp : compare_csv_files file_a file_b key_field = .ok diffs) :
    ∀ d ∈ diffs,
      (d.difference_type = VALUE_MISMATCH ∨ d.difference_type = MISSING_IN_A ∨
        d.difference_type = MISSING_IN_B) ∧
      ((d.difference_type = MISSING_IN_A ∨ d.difference_type = MISSING_IN_B) →
        d.column = "__missing__") ∧
      (d.difference_type = VALUE_MISMATCH →
        d.column ∈ allColumns rows_a rows_b ∧ ¬ d.column = key_field) ∧
      ("__missing__" ∉ allColumns rows_a rows_b →
        (d.column = "__missing__" ↔
          (d.difference_type = MISSING_IN_A ∨ d.difference_type = MISSING_IN_B))) := by
  intro d hd
  rw [compare_ok_eq hra hrb hcmp] at hd
  obtain ⟨k, hk, hdk⟩ := List.mem_flatMap.1 hd
  have hshape := keyDifferences_shape hdk
  have hvm_ne_ma : VALUE_MISMATCH ≠ MISSING_IN_A := by decide
  have hvm_ne_mb : VALUE_MISMATCH ≠ MISSING_IN_B := by decide
  rcases hshape with ⟨ht, hcol⟩ | ⟨ht, hcol⟩ | ⟨ht, hcolmem, hcolne⟩
  · exact ⟨Or.inr (Or.inl ht),
      fun _ => hcol,
      fun hv => absurd (hv.symm.trans ht) hvm_ne_ma,
      fun _ => ⟨fun _ => Or.inl ht, fun _ => hcol⟩⟩
  · exact ⟨Or.inr (Or.inr ht),
      fun _ => hcol,
      fun hv => absurd (hv.symm.trans ht) hvm_ne_mb,
      fun _ => ⟨fun _ => Or.inr ht, fun _ => hcol⟩⟩
  · refine ⟨Or.inl ht, fun hmiss => ?_, fun _ => ⟨hcolmem, hcolne⟩, fun hnm => ?_⟩
    · rcases hmiss with hm | hm
      · exact absurd (ht.symm.trans hm) hvm_ne_ma
      · exact absurd (ht.symm.trans hm) hvm_ne_mb
    · constructor
      · intro hcolm
        exact absurd (hcolm ▸ hcolmem) hnm
      · intro hmiss
        rcases hmiss with hm | hm
        · exact absurd (ht.symm.trans hm) hvm_ne_ma
        · exact absurd (ht.symm.trans hm) hvm_ne_mb

theorem C10_difference_well_formed_witness :
    (({ POLICY_NO := "001", column := "__missing__"
        value_a := "Данные файла 1: Amount=100"
        value_b := "Нет записи в b.csv"
        difference_type := MISSING_IN_B } : Difference).difference_type = VALUE_MISMATCH ∨
      ({ POLICY_NO := "001", column := "__missing__"
         value_a := "Данные файла 1: Amount=100"
         value_b := "Нет записи в b.csv"
         difference_type := MISSING_IN_B } : Difference).difference_type = MISSING_IN_A ∨
      ({ POLICY_NO := "001", column := "__missing__"
         value_a := "Данные файла 1: Amount=100"
         value_b := "Нет записи в b.csv"
         difference_type := MISSING_IN_B } : Difference).difference_type = MISSING_IN_B) ∧
    ((({ POLICY_NO := "001", column := "__missing__"
         value_a := "Данные файла 1: Amount=100"
         value_b := "Нет записи в b.csv"
         difference_type := MISSING_IN_B } : Difference).difference_type = MISSING_IN_A ∨
      ({ POLICY_NO := "001", column := "__missing__"
         value_a := "Данные файла 1: Amount=100"
         value_b := "Нет записи в b.csv"
         difference_type := MISSING_IN_B } : Difference).difference_type = MISSING_IN_B) →
      ({ POLICY_NO := "001", column := "__missing__"
         value_a := "Данные файла 1: Amount=100"
         value_b := "Нет записи в b.csv"
         difference_type := MISSING_IN_B } : Difference).column = "__missing__") ∧
    (({ POLICY_NO := "001", column := "__missing__"
        value_a := "Данные файла 1: Amount=100"
        value_b := "Нет записи в b.csv"
        difference_type := MISSING_IN_B } : Difference).difference_type = VALUE_MISMATCH →
      ({ POLICY_NO := "001", column := "__missing__"
         value_a := "Данные файла 1: Amount=100"
         value_b := "Нет записи в b.csv"
         difference_type := MISSING_IN_B } : Difference).column ∈
          allColumns [[("K", "001"), ("Amount", "100")]] [] ∧
      ¬ ({ POLICY_NO := "001", column := "__missing__"
           value_a := "Данные файла 1: Amount=100"
           value_b := "Нет записи в b.csv"
           difference_type := MISSING_IN_B } : Difference).column = "K") ∧
    ("__missing__" ∉ allColumns [[("K", "001"), ("Amount", "100")]] [] →
      (({ POLICY_NO := "001", column := "__missing__"
          value_a := "Данные файла 1: Amount=100"
          value_b := "Нет записи в b.csv"
          difference_type := MISSING_IN_B } : Difference).column = "__missing__" ↔
        (({ POLICY_NO := "001", column := "__missing__"
            value_a := "Данные файла 1: Amount=100"
            value_b := "Нет записи в b.csv"
            difference_type := MISSING_IN_B } : Difference).difference_type = MISSING_IN_A ∨
         ({ POLICY_NO := "001", column := "__missing__"
            value_a := "Данные файла 1: Amount=100"
            value_b := "Нет записи в b.csv"
            difference_type := MISSING_IN_B } : Difference).difference_type = MISSING_IN_B))) :=
  @C10_difference_well_formed sampleA sampleB "K"
    [[("K", "001"), ("Amount", "100")]] []
    [{ POLICY_NO := "001", column := "__missing__"
       value_a := "Данные файла 1: Amount=100"
       value_b := "Нет записи в b.csv"
       difference_type := MISSING_IN_B }]
    (by rfl) (by rfl) (by rfl)
    { POLICY_NO := "001", column := "__missing__"
      value_a := "Данные файла 1: Amount=100"
      value_b := "Нет записи в b.csv"
      difference_type := MISSING_IN_B }
    (by decide)

end CsvChecker
